import Mathlib

/-!
Shallow embedding of `FileBehaviors.WebFilesystemBehavior`
(src/web-filesystem-behavior.js) and `FileBehaviors.SyncFilesystemBehaviorImpl`
(src/sync-filesystem-behavior.js): a component behavior exposing the Chrome
filesystem API as filename-addressed read/write/list/remove operations over a
mounted storage root.

The asynchronous code is embedded by making every platform suspension point an
explicit parameter (injected outcome) and by representing each operation as a
pure function from the facade state, the mounted store and the injected
outcomes to the resulting state, the backend actions it performs, and the
events it fires.
-/

namespace FileBehaviors

/-- A JavaScript `Error`-like value, identified by its `message` field. -/
structure JSError where
  message : String
deriving DecidableEq

/-- A value a promise chain can be rejected with: `undefined` (for example
`chrome.runtime.lastError` when it is unset) or an error object. -/
inductive RejVal where
  | undef : RejVal
  | err : JSError → RejVal
deriving DecidableEq

/-- A file entry handed back by the platform's directory reader (`FileEntry`).
Only its name matters to this development. -/
structure FileEntry where
  name : String
deriving DecidableEq

/-- ECMAScript string conversion of a `FileEntry`.  The platform interface has
no own `toString`, so every entry converts to the same default tag; this is
what the default comparator of `Array.prototype.sort` compares. -/
def entryToString (_ : FileEntry) : String := "[object FileEntry]"

/-- The exact payload shapes the source passes to `this.fire('error', …)`:
`{'error': reason}` in `requestFilesystem`; the raw reason in `writeFile`,
`readFile`, `list`, `_listImpl` and `remove`; a plain string in the sync
`list` not-signed-in branch; `{'messager': e.message}` in the web
`getUsageAndQuota`; `{'message': reason}` in the sync `getUsageAndQuota`. -/
inductive ErrorPayload where
  | errorKey : RejVal → ErrorPayload
  | raw : RejVal → ErrorPayload
  | rawString : String → ErrorPayload
  | messagerKey : String → ErrorPayload
  | messageKey : RejVal → ErrorPayload
deriving DecidableEq

/-- The events the behavior fires (`filesystem-ready`, `filesystem-usage`,
`error`, `file-read`, `file-write`, `directory-read`, `removed`). -/
inductive Event where
  | filesystemReady : Event
  | filesystemUsage : Nat → Nat → Event
  | error : ErrorPayload → Event
  | fileRead : String → Event
  | fileWrite : Event
  | directoryRead : List FileEntry → Event
  | removed : Event
deriving DecidableEq

/-- A `new Blob(toWrite, {type: mime})` value: its parts and its type tag. -/
structure Blob where
  parts : List String
  type : String
deriving DecidableEq

/-- The text a blob denotes (concatenation of its string parts). -/
def blobText (b : Blob) : String := b.parts.foldl (fun a s => a ++ s) ""

/-- Backend file-handle operations an operation performs, in order.
`acquire n created` is `root.getFile(n, {create:true}, …)` together with
whether it had to create the file. -/
inductive Action where
  | acquire : String → Bool → Action
  | truncate : String → Action
  | writeBlob : String → Blob → Action
  | readAsText : String → Action
  | deleteFile : String → Action
deriving DecidableEq

/-! ### JavaScript `String.prototype.indexOf` -/

/-- First index at which `pat` occurs in the character list, if any. -/
def listIndexOf (pat : List Char) : List Char → Option Nat
  | [] => if pat.isPrefixOf ([] : List Char) then some 0 else none
  | c :: cs =>
    if pat.isPrefixOf (c :: cs) then some 0 else (listIndexOf pat cs).map (· + 1)

/-- JavaScript `s.indexOf(pat)`: the first occurrence index, `-1` if absent. -/
def strIndexOf (s pat : String) : Int :=
  match listIndexOf pat.data s.data with
  | some i => (i : Int)
  | none => -1

/-! ### The mounted store and the facade state -/

/-- The mounted root directory: a finite map from filename to file text. -/
abbrev FStore := List (String × String)

/-- Lookup of a file's content by name. -/
def storeGet : FStore → String → Option String
  | [], _ => none
  | (m, d) :: rest, n => if m = n then some d else storeGet rest n

/-- Update (or create) the file named `n` with content `v`. -/
def storeSet : FStore → String → String → FStore
  | [], n, v => [(n, v)]
  | (m, d) :: rest, n, v =>
    if m = n then (n, v) :: rest else (m, d) :: storeSet rest n v

/-- Delete the file named `n`. -/
def storeDelete : FStore → String → FStore
  | [], _ => []
  | (m, d) :: rest, n => if m = n then rest else (m, d) :: storeDelete rest n

/-- The mutable attributes of the facade that the file operations use:
`filename` (may be unset), the mirror-mode flag `auto`, `content`, `mime`. -/
structure FacadeState where
  filename : Option String
  auto : Bool
  content : String
  mime : String
deriving DecidableEq

/-- JavaScript truthiness of the `filename` attribute: unset and the empty
string are falsy. -/
def filenameTruthy : Option String → Bool
  | none => false
  | some s => !(s == "")

/-- Observer `_contentChanged`: `if (this.auto && this.filename)` then
`this.writeFile()`.  Returns whether a `writeFile` call is triggered. -/
def contentChangedTriggers (st : FacadeState) : Bool :=
  st.auto && filenameTruthy st.filename

/-- Assignment `this.content = v`, which runs the `_contentChanged` observer:
the updated state, and whether the observer invokes `writeFile`. -/
def setContent (st : FacadeState) (v : String) : FacadeState × Bool :=
  let stNew := { st with content := v }
  (stNew, contentChangedTriggers stNew)

/-- `getFile()` under a mounted filesystem:
`this.fileSystem.root.getFile(n, {create: true}, …)` opens the child named
`n`, creating an empty file when it is absent.  Returns the store afterwards
and whether a file had to be created. -/
def getFileStep (store : FStore) (n : String) : FStore × Bool :=
  match storeGet store n with
  | some _ => (store, false)
  | none => (storeSet store n "", true)

/-- `FileWriter.write(blob)` issued at position 0: it overwrites the leading
characters of the existing content and leaves any longer tail in place (a
write does not shrink a file; only `truncate` does). -/
def fwWrite (old incoming : String) : String :=
  ⟨incoming.data ++ old.data.drop incoming.data.length⟩

/-- Result of a store-level operation: the store afterwards, the backend
actions performed in order, and the events fired in order. -/
structure OpResult where
  store : FStore
  actions : List Action
  events : List Event
deriving DecidableEq

/-- Success path of `writeFile()` with the current filename `n`: the chain
`getFile() → _truncate → getFile() → _writeFileEntry → fire('file-write')`.
`_truncate` is `fileWriter.truncate(0)`; `_writeFileEntry` builds
`new Blob([this.content], {type: this.mime})` (string content) and writes it
through a fresh writer at position 0. -/
def writeFile (st : FacadeState) (store : FStore) (n : String) : OpResult :=
  let g1 := getFileStep store n
  let s2 := storeSet g1.1 n ""
  let g2 := getFileStep s2 n
  let blob : Blob := ⟨[st.content], st.mime⟩
  let old := (storeGet g2.1 n).getD ""
  let s4 := storeSet g2.1 n (fwWrite old (blobText blob))
  ⟨s4, [.acquire n g1.2, .truncate n, .acquire n g2.2, .writeBlob n blob],
    [.fileWrite]⟩

/-- Result of `readFile()`: the facade state afterwards (including the
asynchronous restoration of `auto`), the store, the backend actions, the
events, and whether the content assignment triggered a nested `writeFile`
through the `_contentChanged` observer. -/
structure ReadResult where
  state : FacadeState
  store : FStore
  actions : List Action
  events : List Event
  nestedWrite : Bool
deriving DecidableEq

/-- Success path of `readFile()` with the current filename `n`:
`getFile() → _readFileContents` (read the file as text), then in the success
handler: save `auto`, set `this.auto = false`, assign `this.content = result`
(which runs the `_contentChanged` observer on the updated state), schedule the
asynchronous restoration of `auto`, and fire `file-read` with the content. -/
def readFile (st : FacadeState) (store : FStore) (n : String) : ReadResult :=
  let g := getFileStep store n
  let result := (storeGet g.1 n).getD ""
  let auto0 := st.auto
  let stOff : FacadeState := { st with auto := false }
  let assigned := setContent stOff result
  let stRestored : FacadeState := { assigned.1 with auto := auto0 }
  ⟨stRestored, g.1, [.acquire n g.2, .readAsText n], [.fileRead result],
    assigned.2⟩

/-- `remove()`: `if (!this.filename || this.filename === '')` fire `error`
with `new Error('Filename not present.')` and return without touching the
backend; otherwise `getFile()` then `fileEntry.remove`, firing `removed` on
success and the raw reason as `error` on failure.  `gfErr` injects a
`getFile()` rejection (mount or open failure); `delErr` injects a failure of
`fileEntry.remove`. -/
def remove (st : FacadeState) (store : FStore) (gfErr : Option RejVal)
    (delErr : Option JSError) : OpResult :=
  match st.filename with
  | none => ⟨store, [], [.error (.raw (.err ⟨"Filename not present."⟩))]⟩
  | some n =>
    if n = "" then
      ⟨store, [], [.error (.raw (.err ⟨"Filename not present."⟩))]⟩
    else
      match gfErr with
      | some r => ⟨store, [], [.error (.raw r)]⟩
      | none =>
        let g := getFileStep store n
        match delErr with
        | none => ⟨storeDelete g.1 n, [.acquire n g.2, .deleteFile n], [.removed]⟩
        | some e => ⟨g.1, [.acquire n g.2], [.error (.raw (.err e))]⟩

/-! ### Mounting -/

/-- The attributes `_requestFilesystem` uses: the configured `quota`, the
read-only `grantedQuota`, and the cached `fileSystem` handle (a platform
handle identifier when mounted). -/
structure MountState where
  quota : Nat
  grantedQuota : Nat
  fileSystem : Option Nat
deriving DecidableEq

/-- `window.PERSISTENT`, the persistent filesystem class constant. -/
def PERSISTENT : Nat := 1

/-- Platform requests a mount can issue:
`navigator.webkitPersistentStorage.requestQuota(bytes, …)`,
`window.requestFileSystem(kind, size, …)`, and
`chrome.syncFileSystem.requestFileSystem(…)`. -/
inductive PlatformCall where
  | requestQuota : Nat → PlatformCall
  | requestFS : Nat → Nat → PlatformCall
  | syncRequestFS : PlatformCall
deriving DecidableEq

/-- How the `_requestFilesystem` promise settles. -/
inductive MountResult where
  | resolved : MountResult
  | rejected : RejVal → MountResult
deriving DecidableEq

/-- Outcome of the platform quota request. -/
inductive QuotaResp where
  | granted : Nat → QuotaResp
  | failure : JSError → QuotaResp
deriving DecidableEq

/-- Outcome of the platform filesystem request. -/
inductive FSResp where
  | ok : Nat → FSResp
  | failure : JSError → FSResp
deriving DecidableEq

/-- Web `_requestFilesystem`: if `this.fileSystem` is set, resolve immediately;
otherwise request a quota of `this.quota` bytes, on grant record
`grantedQuota = grantedBytes` and request a `PERSISTENT` filesystem of
`grantedBytes` size, caching the handle on success; any platform error
rejects. -/
def webRequestFilesystem (st : MountState) (q : QuotaResp) (f : FSResp) :
    MountState × List PlatformCall × MountResult :=
  match st.fileSystem with
  | some _ => (st, [], .resolved)
  | none =>
    match q with
    | .failure e => (st, [.requestQuota st.quota], .rejected (.err e))
    | .granted g =>
      let st1 : MountState := { st with grantedQuota := g }
      match f with
      | .ok fsid =>
        ({ st1 with fileSystem := some fsid },
          [.requestQuota st.quota, .requestFS PERSISTENT g], .resolved)
      | .failure e =>
        (st1, [.requestQuota st.quota, .requestFS PERSISTENT g],
          .rejected (.err e))

/-- Conversion of a possibly-unset `chrome.runtime.lastError` to a rejection
value. -/
def optToRej : Option JSError → RejVal
  | none => .undef
  | some e => .err e

/-- Outcome of `chrome.syncFileSystem.requestFileSystem`: a filesystem, or
`null` together with the current `chrome.runtime.lastError`. -/
inductive SyncFSResp where
  | ok : Nat → SyncFSResp
  | nullFS : Option JSError → SyncFSResp
deriving DecidableEq

/-- Sync `_requestFilesystem`: if `this.fileSystem` is set, resolve
immediately; otherwise request the syncable filesystem, rejecting with
`chrome.runtime.lastError` when the platform hands back `null`. -/
def syncRequestFilesystem (st : MountState) (resp : SyncFSResp) :
    MountState × List PlatformCall × MountResult :=
  match st.fileSystem with
  | some _ => (st, [], .resolved)
  | none =>
    match resp with
    | .ok fsid => ({ st with fileSystem := some fsid }, [.syncRequestFS], .resolved)
    | .nullFS le => (st, [.syncRequestFS], .rejected (optToRej le))

/-! ### Promise chains at the event level

Each public operation is a `.then` chain ending in a single `catch` that fires
an `error` event.  The outcome of every suspension point is injected as an
`Except RejVal` value, and the operation's observable behavior is the list of
events it fires. -/

/-- The settlement of one suspension point of a promise chain. -/
abbrev PResult (α : Type) := Except RejVal α

/-- `requestFilesystem()`: fire `filesystem-ready` on success, or `error` with
`{'error': reason}` on failure. -/
def requestFilesystemRun (m : PResult Unit) : List Event :=
  match m with
  | .ok _ => [.filesystemReady]
  | .error r => [.error (.errorKey r)]

/-- The `writeFile()` chain `getFile → _truncate → getFile → _writeFileEntry`
with each step's settlement injected; the single `catch` fires the raw reason
as an `error` event. -/
def writeFileRun (g1 t g2 w : PResult Unit) : List Event :=
  match g1 >>= fun _ => t >>= fun _ => g2 >>= fun _ => w with
  | .ok _ => [.fileWrite]
  | .error r => [.error (.raw r)]

/-- The `readFile()` chain `getFile → _readFileContents` with each step's
settlement injected; the single `catch` fires the raw reason. -/
def readFileRun (g : PResult Unit) (rd : PResult String) : List Event :=
  match g >>= fun _ => rd with
  | .ok s => [.fileRead s]
  | .error r => [.error (.raw r)]

/-- One response of `dirReader.readEntries`: a page of entries (possibly
empty) or a failure. -/
inductive PageResp where
  | page : List FileEntry → PageResp
  | failure : RejVal → PageResp
deriving DecidableEq

/-! ### Sorting -/

/-- Lexicographic comparison of character lists by code point. -/
def lexLt : List Char → List Char → Bool
  | [], [] => false
  | [], _ :: _ => true
  | _ :: _, [] => false
  | a :: as, b :: bs =>
    if a.toNat < b.toNat then true
    else if b.toNat < a.toNat then false
    else lexLt as bs

/-- String comparison used by JavaScript's default sort comparator. -/
def strLtB (a b : String) : Bool := lexLt a.data b.data

/-- Stable insertion of `x` after the elements `y` with `le y x`. -/
def insertStable {α : Type} (le : α → α → Bool) (x : α) : List α → List α
  | [] => [x]
  | y :: ys => if le y x then y :: insertStable le x ys else x :: y :: ys

/-- Stable insertion sort with comparator `le` (ECMAScript requires
`Array.prototype.sort` to be stable). -/
def stableSortBy {α : Type} (le : α → α → Bool) (l : List α) : List α :=
  l.foldl (fun acc x => insertStable le x acc) []

/-- `entries.sort()` with no comparator: ECMAScript sorts by the elements'
string conversions, which for `FileEntry` objects are all the identical
default tag. -/
def jsSortDefault (l : List FileEntry) : List FileEntry :=
  stableSortBy (fun a b => !(strLtB (entryToString b) (entryToString a))) l

/-- Spec-side definition, following the specification's words "sorted by name
before being handed to the caller": sort the listing by entry name.  Stated
for comparison with `jsSortDefault`. -/
def sortByName (l : List FileEntry) : List FileEntry :=
  stableSortBy (fun a b => !(strLtB b.name a.name)) l

/-- The `readEntries` loop of `_listImpl`: accumulate non-empty pages; an
empty page fires `directory-read` with `entries.sort()`; a page failure fires
the raw reason as `error` (directly, not through the operation's `catch`); an
unresponsive reader fires nothing. -/
def readEntriesLoop : List FileEntry → List PageResp → List Event
  | _, [] => []
  | entries, .page p :: rest =>
    if p = [] then [.directoryRead (jsSortDefault entries)]
    else readEntriesLoop (entries ++ p) rest
  | _, .failure r :: _ => [.error (.raw r)]

/-- Web `list()`: `_listImpl()` with a `catch` that fires the raw reason.  The
mount settlement `m` and the successive reader responses are injected. -/
def listRunWeb (m : PResult Unit) (pages : List PageResp) : List Event :=
  match m with
  | .ok _ => readEntriesLoop [] pages
  | .error r => [.error (.raw r)]

/-! ### Usage queries -/

/-- Web `getUsageAndQuota()`: on success fire `filesystem-usage`; on failure
fire `error` with `{'messager': e.message}`. -/
def getUsageAndQuota (out : Except JSError (Nat × Nat)) : List Event :=
  match out with
  | .ok uq => [.filesystemUsage uq.1 uq.2]
  | .error e => [.error (.messagerKey e.message)]

/-- Sync `getUsageAndQuota()`: mount, then query; a mount failure is caught
and fired as `error` with `{'message': reason}`. -/
def syncGetUsageAndQuota (m : PResult Unit) (info : Nat × Nat) : List Event :=
  match m with
  | .ok _ => [.filesystemUsage info.1 info.2]
  | .error r => [.error (.messageKey r)]

/-! ### Sync not-signed-in translation -/

/-- The substring the sync behavior looks for in platform error messages. -/
def sentinel : String := "error code: -107"

/-- The domain-specific not-signed-in message. -/
def domainMsg : String := "You must be signed in to the Chrome to use syncable storage"

/-- The guard
`reason && reason.message && reason.message.indexOf('error code: -107') > 0`. -/
def notSignedInCond : RejVal → Bool
  | .undef => false
  | .err e => (!(e.message == "")) && decide (0 < strIndexOf e.message sentinel)

/-- Sync `getFile()`: the promise settles with the open outcome `o` when the
mount succeeds; a mount rejection `r` goes through the `catch`, which rejects
with `new Error(domainMsg)` when the guard matches and with `r` itself
otherwise.  A rejection from the open error callback settles the outer
promise directly and never reaches the `catch`. -/
def syncGetFileRun (m : PResult Unit) (o : PResult Unit) : PResult Unit :=
  match m with
  | .ok _ => o
  | .error r =>
    if notSignedInCond r then .error (.err ⟨domainMsg⟩) else .error r

/-- Sync `list()`: `_listImpl()` with a `catch` that fires the domain message
as a plain string when the guard matches and the raw reason otherwise.  Page
failures are fired inside `_listImpl` and never reach the `catch`. -/
def syncListRun (m : PResult Unit) (pages : List PageResp) : List Event :=
  match m with
  | .ok _ => readEntriesLoop [] pages
  | .error r =>
    if notSignedInCond r then [.error (.rawString domainMsg)]
    else [.error (.raw r)]

/-- Spec-side predicate, following the claim's words: the message contains the
sentinel substring anywhere. -/
def specContainsSentinel (s : String) : Bool :=
  (listIndexOf sentinel.data s.data).isSome

/-- Spec-side predicate, following the claim's words for the error payload:
an object carrying the error under the key `error`, or the raw error itself. -/
def claimedErrorPayload : ErrorPayload → Bool
  | .errorKey _ => true
  | .raw _ => true
  | _ => false

/-! ### Helper lemmas -/

theorem storeGet_set_self (s : FStore) (n v : String) :
    storeGet (storeSet s n v) n = some v := by
  induction s with
  | nil => simp [storeSet, storeGet]
  | cons hd tl ih =>
    obtain ⟨m, d⟩ := hd
    by_cases h : m = n
    · simp [storeSet, storeGet, h]
    · simp [storeSet, storeGet, h, ih]

theorem storeDelete_set_self (s : FStore) (n v : String)
    (h : storeGet s n = none) : storeDelete (storeSet s n v) n = s := by
  induction s with
  | nil => simp [storeSet, storeDelete]
  | cons hd tl ih =>
    obtain ⟨m, d⟩ := hd
    by_cases hm : m = n
    · simp [storeGet, hm] at h
    · simp [storeGet, hm] at h
      simp [storeSet, storeDelete, hm, ih h]

theorem string_empty_append (s : String) : "" ++ s = s := by
  show String.mk (String.data "" ++ s.data) = s
  rw [show String.data "" = [] from rfl, List.nil_append]

theorem blobText_single (c t : String) : blobText ⟨[c], t⟩ = c := by
  show "" ++ c = c
  exact string_empty_append c

theorem fwWrite_empty (c : String) : fwWrite "" c = c := by
  show String.mk (c.data ++ (String.data "").drop c.data.length) = c
  rw [show String.data "" = [] from rfl, List.drop_nil, List.append_nil]

theorem getFileStep_found (store : FStore) (n d : String)
    (h : storeGet store n = some d) : getFileStep store n = (store, false) := by
  simp [getFileStep, h]

theorem writeFile_store_content (st : FacadeState) (store : FStore) (n : String) :
    storeGet (writeFile st store n).store n = some st.content := by
  unfold writeFile
  simp only [getFileStep_found _ _ _ (storeGet_set_self (getFileStep store n).1 n ""),
    storeGet_set_self, Option.getD_some, blobText_single, fwWrite_empty]

theorem getFileStep_snd (store : FStore) (n : String) :
    (getFileStep store n).2 = (storeGet store n).isNone := by
  unfold getFileStep
  cases storeGet store n <;> simp

/-! ### Claims -/

/-- C1: every `writeFile()` call acquires the file handle, truncates the file
to zero length, reacquires the handle (two sequential acquisitions, with the
truncation completed before the second acquisition), writes a blob built from
the current content tagged with the current mime type, and fires the
`file-write` notification; the resulting file holds exactly the new content,
so its length equals the new content's length with no residual characters
from a longer previous content. -/
theorem C1_writeFile_truncate_then_write (st : FacadeState) (store : FStore)
    (n : String) (_hf : st.filename = some n) :
    (writeFile st store n).actions =
      [.acquire n (storeGet store n).isNone, .truncate n, .acquire n false,
       .writeBlob n ⟨[st.content], st.mime⟩] ∧
    (writeFile st store n).events = [.fileWrite] ∧
    storeGet (writeFile st store n).store n = some st.content ∧
    ((storeGet (writeFile st store n).store n).getD "").length
      = st.content.length := by
  refine ⟨?_, rfl, writeFile_store_content st store n, ?_⟩
  · unfold writeFile
    simp only [getFileStep_found _ _ _ (storeGet_set_self (getFileStep store n).1 n ""),
      getFileStep_snd]
  · rw [writeFile_store_content st store n]
    rfl

/-- Witness for C1: writing the 2-character content "hi" over a 6-character
file leaves exactly the 2-character content. -/
theorem C1_writeFile_truncate_then_write_witness :
    (writeFile ⟨some "a.txt", false, "hi", "text/plain"⟩ [("a.txt", "longer")] "a.txt").actions =
      [.acquire "a.txt" (storeGet [("a.txt", "longer")] "a.txt").isNone, .truncate "a.txt",
       .acquire "a.txt" false, .writeBlob "a.txt" ⟨["hi"], "text/plain"⟩] ∧
    (writeFile ⟨some "a.txt", false, "hi", "text/plain"⟩ [("a.txt", "longer")] "a.txt").events
      = [.fileWrite] ∧
    storeGet (writeFile ⟨some "a.txt", false, "hi", "text/plain"⟩ [("a.txt", "longer")] "a.txt").store "a.txt"
      = some "hi" ∧
    ((storeGet (writeFile ⟨some "a.txt", false, "hi", "text/plain"⟩ [("a.txt", "longer")] "a.txt").store "a.txt").getD "").length
      = ("hi" : String).length :=
  C1_writeFile_truncate_then_write ⟨some "a.txt", false, "hi", "text/plain"⟩
    [("a.txt", "longer")] "a.txt" rfl

/-- C2: for a string payload `s` held in the content attribute, `writeFile()`
followed by `readFile()` fires `file-read` carrying exactly `s` and assigns
`s` back to the content attribute. -/
theorem C2_write_read_roundtrip (st : FacadeState) (store : FStore) (n s : String)
    (_hf : st.filename = some n) (hc : st.content = s) :
    (readFile st (writeFile st store n).store n).events = [.fileRead s] ∧
    (readFile st (writeFile st store n).store n).state.content = s := by
  have h := writeFile_store_content st store n
  constructor
  · unfold readFile
    simp [getFileStep_found _ _ _ h, h, hc]
  · unfold readFile setContent
    simp [getFileStep_found _ _ _ h, h, hc]

/-- Witness for C2 with the payload "payload" written to an initially empty
root. -/
theorem C2_write_read_roundtrip_witness :
    (readFile ⟨some "f", false, "payload", "text/plain"⟩
        (writeFile ⟨some "f", false, "payload", "text/plain"⟩ [] "f").store "f").events
      = [.fileRead "payload"] ∧
    (readFile ⟨some "f", false, "payload", "text/plain"⟩
        (writeFile ⟨some "f", false, "payload", "text/plain"⟩ [] "f").store "f").state.content
      = "payload" :=
  C2_write_read_roundtrip ⟨some "f", false, "payload", "text/plain"⟩ [] "f" "payload" rfl rfl

/-- C6: with mirror mode enabled (`auto = true` and a truthy filename), a
`readFile()` never triggers a nested `writeFile()` — the content assignment
performed by the read runs the `_contentChanged` observer with `auto`
suspended — and `auto` is restored afterwards; by contrast, a plain content
assignment outside the read does trigger the auto-write. -/
theorem C6_read_no_nested_write (st : FacadeState) (store : FStore) (n v : String)
    (ha : st.auto = true) (hf : st.filename = some n) (hn : n ≠ "") :
    (readFile st store n).nestedWrite = false ∧
    (readFile st store n).state.auto = true ∧
    (setContent st v).2 = true := by
  have hb : (n == "") = false := beq_eq_false_iff_ne.mpr hn
  refine ⟨?_, ?_, ?_⟩
  · simp [readFile, setContent, contentChangedTriggers]
  · simp [readFile, ha]
  · simp [setContent, contentChangedTriggers, ha, hf, filenameTruthy, hb]

/-- Witness for C6 at a concrete mirror-mode state. -/
theorem C6_read_no_nested_write_witness :
    (readFile ⟨some "f", true, "old", "text/plain"⟩ [("f", "data")] "f").nestedWrite = false ∧
    (readFile ⟨some "f", true, "old", "text/plain"⟩ [("f", "data")] "f").state.auto = true ∧
    (setContent ⟨some "f", true, "old", "text/plain"⟩ "fresh").2 = true :=
  C6_read_no_nested_write ⟨some "f", true, "old", "text/plain"⟩ [("f", "data")] "f" "fresh"
    rfl rfl (by decide)

/-- C7: `remove()` with an absent or empty filename fires an immediate
`error` notification and performs zero backend actions; with a non-empty
filename it acquires the file handle and deletes the file, firing `removed`
on success and the raw reason as `error` on a deletion failure. -/
theorem C7_remove_precondition (st : FacadeState) (store : FStore) (n : String)
    (e : JSError) (gf : Option RejVal) (del : Option JSError) :
    (st.filename = none →
      remove st store gf del
        = ⟨store, [], [.error (.raw (.err ⟨"Filename not present."⟩))]⟩) ∧
    (st.filename = some "" →
      remove st store gf del
        = ⟨store, [], [.error (.raw (.err ⟨"Filename not present."⟩))]⟩) ∧
    (st.filename = some n → n ≠ "" →
      (remove st store none none).actions
          = [.acquire n (storeGet store n).isNone, .deleteFile n] ∧
      (remove st store none none).events = [.removed]) ∧
    (st.filename = some n → n ≠ "" →
      (remove st store none (some e)).events = [.error (.raw (.err e))]) := by
  refine ⟨fun h => by simp [remove, h], fun h => by simp [remove, h], ?_, ?_⟩
  · intro h hn
    constructor
    · simp [remove, h, hn, getFileStep_snd]
    · simp [remove, h, hn]
  · intro h hn
    simp [remove, h, hn]

/-- Witness for C7: the empty-filename case and the successful deletion case
at concrete states. -/
theorem C7_remove_precondition_witness :
    (remove ⟨none, false, "", "text/plain"⟩ [("f", "x")] none none
      = ⟨[("f", "x")], [], [.error (.raw (.err ⟨"Filename not present."⟩))]⟩) ∧
    (remove ⟨some "f", false, "", "text/plain"⟩ [("f", "x")] none none).events
      = [.removed] :=
  ⟨(C7_remove_precondition ⟨none, false, "", "text/plain"⟩ [("f", "x")] "f" ⟨"b"⟩ none none).1 rfl,
   ((C7_remove_precondition ⟨some "f", false, "", "text/plain"⟩ [("f", "x")] "f" ⟨"b"⟩ none none).2.2.1
      rfl (by decide)).2⟩

/-- C10: `remove()` on a non-empty filename that names no existing file first
creates the file — the handle is acquired with `{create: true}` — and then
deletes it, firing `removed` rather than a not-found error, and leaving the
store as it was. -/
theorem C10_remove_missing_creates_then_deletes (st : FacadeState)
    (store : FStore) (n : String) (hf : st.filename = some n) (hn : n ≠ "")
    (hmiss : storeGet store n = none) :
    (remove st store none none).actions = [.acquire n true, .deleteFile n] ∧
    (remove st store none none).events = [.removed] ∧
    (remove st store none none).store = store := by
  have hg : getFileStep store n = (storeSet store n "", true) := by
    simp [getFileStep, hmiss]
  refine ⟨?_, ?_, ?_⟩ <;>
    simp [remove, hf, hn, hg, storeDelete_set_self _ _ _ hmiss]

/-- Witness for C10: removing the absent file "g" from a root holding only
"other". -/
theorem C10_remove_missing_creates_then_deletes_witness :
    (remove ⟨some "g", false, "", "text/plain"⟩ [("other", "x")] none none).actions
      = [.acquire "g" true, .deleteFile "g"] ∧
    (remove ⟨some "g", false, "", "text/plain"⟩ [("other", "x")] none none).events
      = [.removed] ∧
    (remove ⟨some "g", false, "", "text/plain"⟩ [("other", "x")] none none).store
      = [("other", "x")] :=
  C10_remove_missing_creates_then_deletes ⟨some "g", false, "", "text/plain"⟩
    [("other", "x")] "g" rfl (by decide) (by decide)

/-- C3 (code-bug record): `_listImpl` accumulates the paginated entries until
the empty page and fires `directory-read` with `entries.sort()`; the default
comparator of `Array.prototype.sort` compares the entries' identical string
conversions, so the emitted listing keeps the enumeration order and is not
sorted by name.  The pagination [b.txt, a.txt] followed by the empty page
yields [b.txt, a.txt] (idem when paginated as {1,1}), while sorting those
entries by name yields [a.txt, b.txt]. -/
theorem C3_default_sort_not_by_name :
    listRunWeb (.ok ()) [.page [⟨"b.txt"⟩, ⟨"a.txt"⟩], .page []]
      = [.directoryRead [⟨"b.txt"⟩, ⟨"a.txt"⟩]] ∧
    listRunWeb (.ok ()) [.page [⟨"b.txt"⟩], .page [⟨"a.txt"⟩], .page []]
      = [.directoryRead [⟨"b.txt"⟩, ⟨"a.txt"⟩]] ∧
    sortByName [⟨"b.txt"⟩, ⟨"a.txt"⟩] = [⟨"a.txt"⟩, ⟨"b.txt"⟩] ∧
    jsSortDefault [⟨"b.txt"⟩, ⟨"a.txt"⟩] ≠ sortByName [⟨"b.txt"⟩, ⟨"a.txt"⟩] := by
  decide

/-- C4: once the filesystem handle is cached, `_requestFilesystem` of both
backends resolves immediately with no platform request and an unchanged
state; and after one successful unmounted mount the handle is set, so every
further call of either variant is again an immediate no-op — the cached root
is written at most once and reused thereafter. -/
theorem C4_mount_idempotent (st : MountState) (h : Nat)
    (hm : st.fileSystem = some h) :
    (∀ q f, webRequestFilesystem st q f = (st, [], .resolved)) ∧
    (∀ r, syncRequestFilesystem st r = (st, [], .resolved)) ∧
    (∀ st0 : MountState, st0.fileSystem = none → ∀ g fsid,
      (webRequestFilesystem st0 (.granted g) (.ok fsid)).1.fileSystem = some fsid ∧
      (∀ q f, webRequestFilesystem (webRequestFilesystem st0 (.granted g) (.ok fsid)).1 q f
        = ((webRequestFilesystem st0 (.granted g) (.ok fsid)).1, [], .resolved)) ∧
      (syncRequestFilesystem st0 (.ok fsid)).1.fileSystem = some fsid ∧
      (∀ r, syncRequestFilesystem (syncRequestFilesystem st0 (.ok fsid)).1 r
        = ((syncRequestFilesystem st0 (.ok fsid)).1, [], .resolved))) := by
  refine ⟨fun q f => by simp [webRequestFilesystem, hm],
    fun r => by simp [syncRequestFilesystem, hm], ?_⟩
  intro st0 h0 g fsid
  refine ⟨by simp [webRequestFilesystem, h0],
    fun q f => by simp [webRequestFilesystem, h0],
    by simp [syncRequestFilesystem, h0],
    fun r => by simp [syncRequestFilesystem, h0]⟩

/-- Witness for C4 at the mounted state with handle 7 and the fresh mount of
handle 5. -/
theorem C4_mount_idempotent_witness :
    (∀ q f, webRequestFilesystem ⟨0, 0, some 7⟩ q f = (⟨0, 0, some 7⟩, [], .resolved)) ∧
    (∀ r, syncRequestFilesystem ⟨0, 0, some 7⟩ r = (⟨0, 0, some 7⟩, [], .resolved)) ∧
    (∀ st0 : MountState, st0.fileSystem = none → ∀ g fsid,
      (webRequestFilesystem st0 (.granted g) (.ok fsid)).1.fileSystem = some fsid ∧
      (∀ q f, webRequestFilesystem (webRequestFilesystem st0 (.granted g) (.ok fsid)).1 q f
        = ((webRequestFilesystem st0 (.granted g) (.ok fsid)).1, [], .resolved)) ∧
      (syncRequestFilesystem st0 (.ok fsid)).1.fileSystem = some fsid ∧
      (∀ r, syncRequestFilesystem (syncRequestFilesystem st0 (.ok fsid)).1 r
        = ((syncRequestFilesystem st0 (.ok fsid)).1, [], .resolved))) :=
  C4_mount_idempotent ⟨0, 0, some 7⟩ 7 rfl

/-- C9 (counterexample): starting unmounted with a configured quota of 100,
a granted quota of 60 followed by a failing filesystem request leaves
`grantedQuota = 60` recorded even though the mount was rejected — the granted
byte count is not "set upon successful mount". -/
theorem C9_granted_recorded_on_failed_mount :
    (webRequestFilesystem ⟨100, 0, none⟩ (.granted 60) (.failure ⟨"mount failed"⟩)).1.grantedQuota
      = 60 ∧
    (webRequestFilesystem ⟨100, 0, none⟩ (.granted 60) (.failure ⟨"mount failed"⟩)).2.2
      = .rejected (.err ⟨"mount failed"⟩) ∧
    (webRequestFilesystem ⟨100, 0, none⟩ (.granted 60) (.failure ⟨"mount failed"⟩)).1.fileSystem
      = none := by
  decide

/-- C9 (amended): an unmounted persistent-backend mount first requests a
quota grant for the configured byte count, records the granted byte count
into `grantedQuota` upon the grant — before, and regardless of whether, the
subsequent filesystem mount succeeds — and then requests a persistent-class
filesystem of the granted size, caching the handle when that request
succeeds. -/
theorem C9_quota_then_mount (st : MountState) (g : Nat) (f : FSResp)
    (hm : st.fileSystem = none) :
    (webRequestFilesystem st (.granted g) f).2.1
      = [.requestQuota st.quota, .requestFS PERSISTENT g] ∧
    (webRequestFilesystem st (.granted g) f).1.grantedQuota = g ∧
    (∀ fsid, f = .ok fsid →
      (webRequestFilesystem st (.granted g) f).1.fileSystem = some fsid ∧
      (webRequestFilesystem st (.granted g) f).2.2 = .resolved) ∧
    (∀ e, f = .failure e →
      (webRequestFilesystem st (.granted g) f).2.2 = .rejected (.err e) ∧
      (webRequestFilesystem st (.granted g) f).1.fileSystem = st.fileSystem) := by
  cases f <;> simp [webRequestFilesystem, hm]

/-- Witness for C9 (amended) at quota 100, grant 60, successful mount of
handle 5. -/
theorem C9_quota_then_mount_witness :
    (webRequestFilesystem ⟨100, 0, none⟩ (.granted 60) (.ok 5)).2.1
      = [.requestQuota 100, .requestFS PERSISTENT 60] ∧
    (webRequestFilesystem ⟨100, 0, none⟩ (.granted 60) (.ok 5)).1.grantedQuota = 60 ∧
    (∀ fsid, FSResp.ok 5 = .ok fsid →
      (webRequestFilesystem ⟨100, 0, none⟩ (.granted 60) (.ok 5)).1.fileSystem = some fsid ∧
      (webRequestFilesystem ⟨100, 0, none⟩ (.granted 60) (.ok 5)).2.2 = .resolved) ∧
    (∀ e, FSResp.ok 5 = .failure e →
      (webRequestFilesystem ⟨100, 0, none⟩ (.granted 60) (.ok 5)).2.2 = .rejected (.err e) ∧
      (webRequestFilesystem ⟨100, 0, none⟩ (.granted 60) (.ok 5)).1.fileSystem
        = (⟨100, 0, none⟩ : MountState).fileSystem) :=
  C9_quota_then_mount ⟨100, 0, none⟩ 60 (.ok 5) rfl

theorem strIndexOf_empty_sentinel : strIndexOf "" sentinel = -1 := by decide

/-- C5 (counterexample): a mount failure whose message is exactly the
sentinel — so the message contains the sentinel, at index 0 — is NOT
translated by the sync `getFile`/`list` handlers (`indexOf(…) > 0` misses
index 0), and an open failure containing the sentinel at a positive index is
also not translated because the open rejection bypasses the `catch`; both
propagate the raw platform error instead of the domain message. -/
theorem C5_sentinel_at_start_not_translated :
    specContainsSentinel "error code: -107" = true ∧
    syncGetFileRun (.error (.err ⟨"error code: -107"⟩)) (.ok ())
      = .error (.err ⟨"error code: -107"⟩) ∧
    syncListRun (.error (.err ⟨"error code: -107"⟩)) []
      = [.error (.raw (.err ⟨"error code: -107"⟩))] ∧
    specContainsSentinel "open failed error code: -107" = true ∧
    syncGetFileRun (.ok ()) (.error (.err ⟨"open failed error code: -107"⟩))
      = .error (.err ⟨"open failed error code: -107"⟩) ∧
    "error code: -107" ≠ domainMsg :=
  ⟨by decide, by rfl, by decide, by decide, by rfl, by decide⟩

/-- C5 (amended): a sync-backend `getFile` or `list` whose mount rejects with
an error whose message contains the sentinel at a strictly positive index
yields the domain not-signed-in message; every other failure propagates
unchanged — in particular a mount rejection whose message does not contain
the sentinel at a positive index, a mount rejection with no error value, and
a file-open rejection, which settles the promise without passing through the
translating `catch`. -/
theorem C5_not_signed_in_translation (e : JSError) (o : PResult Unit)
    (pages : List PageResp) :
    (0 < strIndexOf e.message sentinel →
      syncGetFileRun (.error (.err e)) o = .error (.err ⟨domainMsg⟩) ∧
      syncListRun (.error (.err e)) pages = [.error (.rawString domainMsg)]) ∧
    (¬ 0 < strIndexOf e.message sentinel →
      syncGetFileRun (.error (.err e)) o = .error (.err e) ∧
      syncListRun (.error (.err e)) pages = [.error (.raw (.err e))]) ∧
    (∀ e2, syncGetFileRun (.ok ()) (.error (.err e2)) = .error (.err e2)) ∧
    syncGetFileRun (.error .undef) o = .error .undef := by
  refine ⟨?_, ?_, fun e2 => rfl, by simp [syncGetFileRun, notSignedInCond]⟩
  · intro h
    have hne : (e.message == "") = false := by
      refine beq_eq_false_iff_ne.mpr ?_
      intro hemp
      rw [hemp, strIndexOf_empty_sentinel] at h
      exact absurd h (by decide)
    have hc : notSignedInCond (.err e) = true := by
      simp [notSignedInCond, hne, h]
    constructor <;> simp [syncGetFileRun, syncListRun, hc]
  · intro h
    have hc : notSignedInCond (.err e) = false := by
      simp [notSignedInCond, h]
    constructor <;> simp [syncGetFileRun, syncListRun, hc]

/-- Witness for C5 (amended): a mount failure with the sentinel at index 2 is
rewritten into the domain message for both `getFile` and `list`. -/
theorem C5_not_signed_in_translation_witness :
    syncGetFileRun (.error (.err ⟨"x error code: -107"⟩)) (.ok ())
      = .error (.err ⟨domainMsg⟩) ∧
    syncListRun (.error (.err ⟨"x error code: -107"⟩)) []
      = [.error (.rawString domainMsg)] :=
  (C5_not_signed_in_translation ⟨"x error code: -107"⟩ (.ok ()) []).1 (by decide)

/-- C8 (counterexample): a failing usage query does not fire the claimed
payload shapes — the web variant fires `{'messager': e.message}` and the sync
variant `{'message': reason}`, neither an object keyed `error` nor the raw
error itself. -/
theorem C8_usage_payload_counterexample :
    getUsageAndQuota (.error ⟨"boom"⟩) = [.error (.messagerKey "boom")] ∧
    claimedErrorPayload (.messagerKey "boom") = false ∧
    syncGetUsageAndQuota (.error (.err ⟨"boom"⟩)) (0, 0)
      = [.error (.messageKey (.err ⟨"boom"⟩))] ∧
    claimedErrorPayload (.messageKey (.err ⟨"boom"⟩)) = false := by
  decide

/-- C8 (amended): every modeled failure of every facade operation is caught
and fired as exactly one `error` event — mount failures as `{'error': reason}`;
read, write, list (both the mount and the page-read stage) and remove
failures (precondition, `getFile` rejection, deletion failure) as the raw
reason; web usage-query failures as `{'messager': message}`; sync usage-query
failures as `{'message': reason}`; sync list mount failures as either the
domain string or the raw reason.  No operation re-raises: each is a total
function into an event list. -/
theorem C8_failures_fire_error_events :
    (∀ r : RejVal, requestFilesystemRun (.error r) = [.error (.errorKey r)]) ∧
    (∀ (r : RejVal) (t g2 w : PResult Unit),
      writeFileRun (.error r) t g2 w = [.error (.raw r)]) ∧
    (∀ (r : RejVal) (g2 w : PResult Unit),
      writeFileRun (.ok ()) (.error r) g2 w = [.error (.raw r)]) ∧
    (∀ (r : RejVal) (w : PResult Unit),
      writeFileRun (.ok ()) (.ok ()) (.error r) w = [.error (.raw r)]) ∧
    (∀ r : RejVal,
      writeFileRun (.ok ()) (.ok ()) (.ok ()) (.error r) = [.error (.raw r)]) ∧
    (∀ (r : RejVal) (rd : PResult String),
      readFileRun (.error r) rd = [.error (.raw r)]) ∧
    (∀ r : RejVal, readFileRun (.ok ()) (.error r) = [.error (.raw r)]) ∧
    (∀ (r : RejVal) (pages : List PageResp),
      listRunWeb (.error r) pages = [.error (.raw r)]) ∧
    (∀ (r : RejVal) (entries : List FileEntry) (rest : List PageResp),
      readEntriesLoop entries (.failure r :: rest) = [.error (.raw r)]) ∧
    (∀ (store : FStore) (gf : Option RejVal) (del : Option JSError) (b : Bool)
        (c m : String),
      remove ⟨none, b, c, m⟩ store gf del
        = ⟨store, [], [.error (.raw (.err ⟨"Filename not present."⟩))]⟩) ∧
    (∀ (store : FStore) (r : RejVal) (del : Option JSError) (b : Bool)
        (c m : String),
      remove ⟨some "f.txt", b, c, m⟩ store (some r) del
        = ⟨store, [], [.error (.raw r)]⟩) ∧
    (∀ (store : FStore) (e : JSError) (b : Bool) (c m : String),
      (remove ⟨some "f.txt", b, c, m⟩ store none (some e)).events
        = [.error (.raw (.err e))]) ∧
    (∀ e : JSError, getUsageAndQuota (.error e) = [.error (.messagerKey e.message)]) ∧
    (∀ (r : RejVal) (info : Nat × Nat),
      syncGetUsageAndQuota (.error r) info = [.error (.messageKey r)]) ∧
    (∀ (r : RejVal) (pages : List PageResp),
      ∃ p : ErrorPayload, syncListRun (.error r) pages = [.error p]) := by
  refine ⟨fun r => rfl, fun r t g2 w => rfl, fun r g2 w => rfl, fun r w => rfl,
    fun r => rfl, fun r rd => rfl, fun r => rfl, fun r pages => rfl,
    fun r entries rest => rfl, fun store gf del b c m => rfl, ?_, ?_,
    fun e => rfl, fun r info => rfl, ?_⟩
  · intro store r del b c m
    simp [remove, show ("f.txt" : String) ≠ "" by decide]
  · intro store e b c m
    simp [remove, show ("f.txt" : String) ≠ "" by decide]
  · intro r pages
    cases hcond : notSignedInCond r
    · exact ⟨.raw r, by simp [syncListRun, hcond]⟩
    · exact ⟨.rawString domainMsg, by simp [syncListRun, hcond]⟩

end FileBehaviors
